import Mathlib

/-!
Shallow embedding of the books_scraper repository (src/scraper.py).

The program fetches paginated catalog listing pages, extracts one record per
book detail page, and writes the accumulated records to a flat file.  Network
traffic is modelled by an environment oracle: listing fetches are indexed by
how many times the same listing address has already been requested in the
current loop iteration (the code fetches each listing page twice, once for
the links and once for the next-page check), and book-detail fetches are a
pure function of the address.  HTML parsing by BeautifulSoup is modelled by
an abstract BookPage value describing which structural elements the markup
contains; absent elements are None in Python and Option.none here.  Python
exceptions are modelled by an explicit error type; each except clause in the
source is translated by a predicate selecting the classes it catches.
-/

/-- Python exception classes that the scraper can raise or catch.
requestException covers the requests.RequestException hierarchy (transport
errors, timeouts, raise_for_status); attributeError, typeError and indexError
arise from BeautifulSoup lookups returning None or short class lists;
runtimeError and exceptionGroup are the extra classes caught in the
thread-pool branch. -/
inductive Exc where
  | requestException : String → Exc
  | attributeError : String → Exc
  | typeError : String → Exc
  | indexError : String → Exc
  | runtimeError : String → Exc
  | exceptionGroup : String → Exc
deriving DecidableEq, Repr

/-- The class test of the clause "except requests.RequestException". -/
def isRequestException : Exc → Bool
  | .requestException _ => true
  | _ => false

/-- The class test of the clause "except (RuntimeError, ExceptionGroup)"
in the thread-pool branch. -/
def isThreadCaught : Exc → Bool
  | .runtimeError _ => true
  | .exceptionGroup _ => true
  | _ => false

/-- The dictionary returned by get_book_data in src/scraper.py. -/
structure BookRecord where
  title : String
  price : String
  availability : String
  rating : String
  description : String
  upc : String
  product_type : String
  price_excl_tax : String
  price_incl_tax : String
  tax : String
  availability_count : String
  number_of_reviews : String
deriving DecidableEq, Repr

/-- Abstraction of the parsed markup of one book detail page, holding
exactly the lookups get_book_data performs.
product_main_h1: stripped text of the h1 inside div.product_main, none when
the div or its h1 is missing (both give AttributeError in the source).
price_color: stripped text of p.price_color.
instock_availability: stripped text of the p with classes instock availability.
star_rating_classes: the class attribute list of the p.star-rating element,
none when the element is missing.
product_description: none when div id product_description is missing (the
source then uses the empty string); some none when the div is there but has
no following p sibling (AttributeError); some (some s) for text s.
info_table: the (th, td) stripped texts of the rows of table.table-striped,
none when the table is missing; a th or td missing inside a row is an inner
none (AttributeError when dereferenced). -/
structure BookPage where
  product_main_h1 : Option String
  price_color : Option String
  instock_availability : Option String
  star_rating_classes : Option (List String)
  product_description : Option (Option String)
  info_table : Option (List (Option String × Option String))
deriving DecidableEq, Repr

/-- One HTTP GET issued by the scraper: the address, the timeout passed to
the requests library, and whether it was a listing-page fetch (session.get
in the page fetcher) as opposed to a book-detail fetch (requests.get in
get_book_data). -/
structure Request where
  url : String
  timeout : Int
  isListing : Bool
deriving DecidableEq, Repr

/-- The network environment of one run.  listing url n is the outcome of
the request for listing address url when n earlier requests for that same
address have already happened in the run (the orchestrator fetches each
listing address at most twice, so only n = 0 and n = 1 are ever used); the
returned strings are the absolutized book links (urljoin is absorbed into
the oracle).  book url is the outcome of fetching and parsing the markup of
a book detail page (response decoding and BeautifulSoup construction are
absorbed into the oracle). -/
structure Env where
  listing : String → Nat → Except Exc (List String)
  book : String → Except Exc BookPage

def BASE_URL : String := "https://books.toscrape.com/"

/-- Models os.path.join(BASE_DIR, "artifacts", "books_data.txt") with
BASE_DIR taken as the current directory. -/
def OUTPUT_PATH : String := "artifacts/books_data.txt"

/-- Dereference a BeautifulSoup text lookup: get_text on a present element
yields its text, on None it raises AttributeError. -/
def getText : Option String → Except Exc String
  | none => .error (.attributeError "NoneType object has no attribute")
  | some s => .ok s

/-- The dict comprehension over info_table.find_all of rows: each row
dereferences row.th and row.td (AttributeError when missing). -/
def buildInfo : List (Option String × Option String) → Except Exc (List (String × String))
  | [] => .ok []
  | (th, td) :: rest =>
    match getText th with
    | .error e => .error e
    | .ok k =>
      match getText td with
      | .error e => .error e
      | .ok v =>
        match buildInfo rest with
        | .error e => .error e
        | .ok tail => .ok ((k, v) :: tail)

/-- Python dict lookup info.get key with default empty string; a repeated
key in the comprehension keeps the last value, hence the reversed search. -/
def dictGet (info : List (String × String)) (key : String) : String :=
  match info.reverse.find? (fun kv => kv.1 == key) with
  | some kv => kv.2
  | none => ""

/-- The pure extraction part of get_book_data (src/scraper.py lines 57 to 91),
performed on the parsed page in source order: title, price, availability,
rating (class attribute index 1: TypeError when the element is missing,
IndexError when its class list is shorter than 2), description (empty string
when the marker div is missing), then the key/value table (AttributeError
when the whole table is missing). -/
def parse_book (soup : BookPage) : Except Exc BookRecord :=
  match getText soup.product_main_h1 with
  | .error e => .error e
  | .ok title =>
    match getText soup.price_color with
    | .error e => .error e
    | .ok price =>
      match getText soup.instock_availability with
      | .error e => .error e
      | .ok availability =>
        match soup.star_rating_classes with
        | none => .error (.typeError "NoneType object is not subscriptable")
        | some cls =>
          match cls[1]? with
          | none => .error (.indexError "list index out of range")
          | some rating =>
            match
              (match soup.product_description with
               | none => Except.ok ""
               | some sib => getText sib) with
            | .error e => .error e
            | .ok description =>
              match soup.info_table with
              | none => .error (.attributeError "NoneType object has no attribute")
              | some rows =>
                match buildInfo rows with
                | .error e => .error e
                | .ok info =>
                  .ok {
                    title := title
                    price := price
                    availability := availability
                    rating := rating
                    description := description
                    upc := dictGet info "UPC"
                    product_type := dictGet info "Product Type"
                    price_excl_tax := dictGet info "Price (excl. tax)"
                    price_incl_tax := dictGet info "Price (incl. tax)"
                    tax := dictGet info "Tax"
                    availability_count := dictGet info "Availability"
                    number_of_reviews := dictGet info "Number of reviews" }

/-- get_book_data without its request trace: fetch the page (requests.get
with the hardcoded timeout 15, raise_for_status) then extract the record. -/
def bookResult (env : Env) (book_url : String) : Except Exc BookRecord :=
  match env.book book_url with
  | .error e => .error e
  | .ok soup => parse_book soup

/-- get_book_data of src/scraper.py: one book-detail request with the
hardcoded timeout 15, then extraction from the parsed page. -/
def get_book_data (env : Env) (book_url : String) :
    List Request × Except Exc BookRecord :=
  ([⟨book_url, 15, false⟩], bookResult env book_url)

/-- The page fetcher of src/scraper.py: one listing request with the caller
supplied timeout, returning the absolutized book links found on the page.
nth is the number of earlier requests for the same address in this run. -/
def _fetch_page (env : Env) (nth : Nat) (page_url : String) (timeout : Int) :
    List Request × Except Exc (List String) :=
  ([⟨page_url, timeout, true⟩], env.listing page_url nth)

/-- The sequential branch of scrape_books (lines 155 to 160): process the
links in listing order, appending each extracted record; the except clause
catches only requests.RequestException (logged and skipped), so any other
error, in particular a parse failure inside get_book_data, propagates and
aborts the whole call.  Returns the requests issued and the outcome.  The
fixed 50 ms inter-request sleep has no observable effect here and is not
modelled. -/
def process_seq (env : Env) : List String → List BookRecord →
    List Request × Except Exc (List BookRecord)
  | [], acc => ([], .ok acc)
  | link :: rest, acc =>
    match bookResult env link with
    | .ok book =>
      let r := process_seq env rest (acc ++ [book])
      (⟨link, 15, false⟩ :: r.1, r.2)
    | .error e =>
      if isRequestException e then
        let r := process_seq env rest acc
        (⟨link, 15, false⟩ :: r.1, r.2)
      else ([⟨link, 15, false⟩], .error e)

/-- The thread-pool branch of scrape_books (lines 140 to 153): every link is
submitted to the pool, and f.result() values are consumed in completion
order, given here as the already permuted list.  The two except clauses
catch requests.RequestException and (RuntimeError, ExceptionGroup); any
other error raised by a task, in particular a parse failure, re-raises from
f.result() and aborts the whole call. -/
def process_threads (env : Env) : List String → List BookRecord →
    Except Exc (List BookRecord)
  | [], acc => .ok acc
  | link :: rest, acc =>
    match bookResult env link with
    | .ok book => process_threads env rest (acc ++ [book])
    | .error e =>
      if isRequestException e || isThreadCaught e then process_threads env rest acc
      else .error e

/-- The per-page dispatch of scrape_books (lines 140 to 160): either the
thread-pool branch (all links submitted, so every request is issued, and
results consumed in the completion order given by sched) or the sequential
branch. -/
def process_page (env : Env) (use_threads : Bool)
    (sched : Nat → List String → List String)
    (page : Nat) (book_links : List String) (acc : List BookRecord) :
    List Request × Except Exc (List BookRecord) :=
  if use_threads then
    (book_links.map (fun l => (⟨l, 15, false⟩ : Request)),
     process_threads env (sched page book_links) acc)
  else process_seq env book_links acc

/-- The test "if max_pages and page >= max_pages" with Python truthiness:
None and 0 are falsy, every other integer (negative included) is truthy. -/
def capReached (max_pages : Option Int) (page : Nat) : Bool :=
  match max_pages with
  | none => false
  | some m => decide (m ≠ 0) && decide (m ≤ (page : Int))

/-- The listing address of a page: the root index for page 1, the numbered
pagination address for pages 2 and up (lines 124 to 128). -/
def page_url_of (page : Nat) : String :=
  if page > 1 then BASE_URL ++ "catalogue/page-" ++ toString page ++ ".html"
  else BASE_URL ++ "index.html"

/-- The while loop of scrape_books (lines 123 to 168), with explicit fuel
since the Python loop is unbounded.  Per iteration: fetch the listing page
(a RequestException is logged and breaks the loop; the except clause catches
nothing else); break when no links; process the links sequentially or with
the pool (in the pool branch all submitted tasks issue their request even
when consuming results aborts, so the whole trace is recorded up front, and
sched gives the completion order of the page's links); break when the page
cap is reached; then re-fetch the same listing address for the next-page
check, a call that sits outside any try block, so its failure propagates;
break when it yields no links, else advance to the next page.  Returns the
requests issued and either the accumulated records or the propagated
exception. -/
def crawl_loop (env : Env) (use_threads : Bool)
    (sched : Nat → List String → List String)
    (max_pages : Option Int) (per_request_timeout : Int) :
    Nat → Nat → List BookRecord → List Request × Except Exc (List BookRecord)
  | 0, _, acc => ([], .ok acc)
  | fuel + 1, page, acc =>
    let page_url := page_url_of page
    let fp1 := _fetch_page env 0 page_url per_request_timeout
    match fp1.2 with
    | .error e =>
      if isRequestException e then (fp1.1, .ok acc) else (fp1.1, .error e)
    | .ok book_links =>
      if book_links.isEmpty then (fp1.1, .ok acc)
      else
        let bres := process_page env use_threads sched page book_links acc
        match bres.2 with
        | .error e => (fp1.1 ++ bres.1, .error e)
        | .ok acc2 =>
          if capReached max_pages page then (fp1.1 ++ bres.1, .ok acc2)
          else
            let fp2 := _fetch_page env 1 page_url per_request_timeout
            match fp2.2 with
            | .error e => (fp1.1 ++ bres.1 ++ fp2.1, .error e)
            | .ok next_button =>
              if next_button.isEmpty then (fp1.1 ++ bres.1 ++ fp2.1, .ok acc2)
              else
                let r := crawl_loop env use_threads sched max_pages
                  per_request_timeout fuel (page + 1) acc2
                (fp1.1 ++ bres.1 ++ fp2.1 ++ r.1, r.2)

/-- A textual rendering of one record, modelling str(book): the exact format
is an unspecified but deterministic function of the record. -/
def bookLine (book : BookRecord) : String :=
  "title: " ++ book.title ++ ", price: " ++ book.price ++
  ", availability: " ++ book.availability ++ ", rating: " ++ book.rating ++
  ", description: " ++ book.description ++ ", upc: " ++ book.upc ++
  ", product_type: " ++ book.product_type ++
  ", price_excl_tax: " ++ book.price_excl_tax ++
  ", price_incl_tax: " ++ book.price_incl_tax ++ ", tax: " ++ book.tax ++
  ", availability_count: " ++ book.availability_count ++
  ", number_of_reviews: " ++ book.number_of_reviews

/-- Models os.path.dirname for ordinary POSIX paths: everything before the
last slash, empty when there is none. -/
def dirname (p : String) : String :=
  String.intercalate "/" (p.splitOn "/").dropLast

/-- The file system visible to the save step: the set of directories known
to exist and the lines of each file. -/
structure FS where
  dirs : List String
  files : String → Option (List String)

/-- The save step of scrape_books (lines 170 to 176): os.makedirs on the
directory of the destination with exist_ok, then open in mode w (truncating
any prior content) and write one line per record. -/
def save_books (books : List BookRecord) (save_path : String) (fs : FS) : FS :=
  { dirs := dirname save_path :: fs.dirs
    files := fun p =>
      if p = save_path then some (books.map bookLine) else fs.files p }

/-- scrape_books of src/scraper.py: run the crawl loop from page 1 with an
empty accumulator; when it raises, the exception propagates and nothing is
saved; otherwise save when is_save is set (to output_path when given, else
OUTPUT_PATH) and return the records.  The Python defaults are is_save true,
use_threads false, max_pages None, output_path None, per_request_timeout 30. -/
def scrape_books (env : Env) (is_save : Bool) (use_threads : Bool)
    (sched : Nat → List String → List String)
    (max_pages : Option Int) (output_path : Option String)
    (per_request_timeout : Int) (fuel : Nat) (fs : FS) :
    List Request × FS × Except Exc (List BookRecord) :=
  let r := crawl_loop env use_threads sched max_pages per_request_timeout
    fuel 1 []
  match r.2 with
  | .error e => (r.1, fs, .error e)
  | .ok all_books =>
    if is_save then
      (r.1, save_books all_books (output_path.getD OUTPUT_PATH) fs, .ok all_books)
    else (r.1, fs, .ok all_books)

/-- The listing-page requests of a trace, in order. -/
def listingUrls (tr : List Request) : List String :=
  (tr.filter (fun r => r.isListing)).map (fun r => r.url)

/-! Concrete fixtures used to evaluate the embedding on closed inputs. -/

/-- A fully well-formed book detail page. -/
def goodPage : BookPage :=
  ⟨some "T", some "P", some "A", some ["star-rating", "Three"], none, some []⟩

/-- The record extracted from goodPage. -/
def goodRec : BookRecord := ⟨"T", "P", "A", "Three", "", "", "", "", "", "", "", ""⟩

/-- A book detail page whose div.product_main block is missing, so the very
first lookup of get_book_data dereferences None. -/
def badPage : BookPage :=
  ⟨none, some "P", some "A", some ["star-rating", "Three"], none, some []⟩

/-- A listing environment with one page of two book links where the second
book page fails to parse. -/
def env1 : Env :=
  ⟨fun _ _ => .ok ["a", "b"],
   fun u => if u == "b" then .ok badPage else .ok goodPage⟩

/-- An environment where the first fetch of the listing address succeeds
with one link and the second fetch of the same address (the next-page
check) fails with a transport error. -/
def env2 : Env :=
  ⟨fun _ n => if n == 0 then .ok ["a"] else .error (.requestException "boom"),
   fun _ => .ok goodPage⟩

/-- An environment with one book link per listing page. -/
def env8 : Env := ⟨fun _ _ => .ok ["b"], fun _ => .ok goodPage⟩

/-- An environment whose listing pages are all empty. -/
def env0 : Env := ⟨fun _ _ => .ok [], fun _ => .ok goodPage⟩

/-- An environment where every listing fetch fails with a transport error. -/
def envDown : Env :=
  ⟨fun _ _ => .error (.requestException "down"), fun _ => .ok goodPage⟩

/-- An environment where every book fetch fails with a transport error. -/
def envBookDown : Env :=
  ⟨fun _ _ => .ok [], fun _ => .error (.requestException "refused")⟩

/-- The identity completion order: threads finish in submission order. -/
def schedId : Nat → List String → List String := fun _ l => l

/-- An empty file system. -/
def fs0 : FS := ⟨[], fun _ => none⟩

/-- A book detail page whose structural elements are present but whose title
text is empty and whose star rating class token is not one of the five
recognized values: the extractor accepts it verbatim. -/
def c5page : BookPage :=
  ⟨some "", some "P", some "A", some ["star-rating", "Six"], none, some []⟩

/-- The record extracted from c5page. -/
def c5rec : BookRecord := ⟨"", "P", "A", "Six", "", "", "", "", "", "", "", ""⟩

/-- A book detail page with every mandatory element present and the whole
key/value table missing. -/
def tablelessPage : BookPage :=
  ⟨some "T", some "P", some "A", some ["star-rating", "Three"], none, none⟩

/-! Helper lemmas about the extractor. -/

theorem getText_ok {o : Option String} {s : String} :
    getText o = .ok s ↔ o = some s := by
  cases o <;> simp [getText]

/-- Inversion of a successful extraction: every structural element that
get_book_data dereferences unconditionally must have been present, and the
mandatory fields of the record are the element contents verbatim. -/
theorem parse_book_ok_inv (soup : BookPage) (r : BookRecord)
    (h : parse_book soup = .ok r) :
    soup.product_main_h1 = some r.title ∧
    soup.price_color = some r.price ∧
    soup.instock_availability = some r.availability ∧
    (∃ cls, soup.star_rating_classes = some cls ∧ cls[1]? = some r.rating) ∧
    (∃ rows, soup.info_table = some rows) := by
  unfold parse_book at h
  repeat' split at h
  any_goals exact Except.noConfusion h
  injection h with h2
  subst h2
  refine ⟨getText_ok.mp (by assumption), getText_ok.mp (by assumption),
    getText_ok.mp (by assumption), ⟨_, by assumption, by assumption⟩,
    ⟨_, by assumption⟩⟩

/-- The dict comprehension succeeds on a table whose rows all carry a th and
a td, and returns exactly those key/value pairs. -/
theorem buildInfo_map_ok (rows : List (String × String)) :
    buildInfo (rows.map (fun kv => (some kv.1, some kv.2))) = .ok rows := by
  induction rows with
  | nil => rfl
  | cons kv rest ih => simp [buildInfo, getText, ih]

/-- A key that occurs in no row is looked up to the empty string default. -/
theorem dictGet_of_not_mem (info : List (String × String)) (key : String)
    (h : ∀ kv ∈ info, kv.1 ≠ key) : dictGet info key = "" := by
  unfold dictGet
  have hf : info.reverse.find? (fun kv => kv.1 == key) = none := by
    apply List.find?_eq_none.mpr
    intro kv hkv
    simpa using h kv (List.mem_reverse.mp hkv)
  rw [hf]

/-! Helper lemmas about the crawl loop. -/

/-- Requests issued by the sequential branch are book-detail requests with
the hardcoded timeout 15. -/
theorem process_seq_trace (env : Env) :
    ∀ links acc, ∀ r ∈ (process_seq env links acc).1,
      r.isListing = false ∧ r.timeout = 15 := by
  intro links
  induction links with
  | nil => intro acc r hr; simp [process_seq] at hr
  | cons link rest ih =>
    intro acc r hr
    cases hb : bookResult env link with
    | ok b =>
      simp only [process_seq, hb] at hr
      rcases List.mem_cons.mp hr with rfl | hr2
      · exact ⟨rfl, rfl⟩
      · exact ih _ r hr2
    | error e =>
      cases hre : isRequestException e <;> simp only [process_seq, hb, hre] at hr
      · rcases List.mem_cons.mp hr with rfl | hr2
        · exact ⟨rfl, rfl⟩
        · simp at hr2
      · simp only [if_true] at hr
        rcases List.mem_cons.mp hr with rfl | hr2
        · exact ⟨rfl, rfl⟩
        · exact ih _ r hr2

/-- Requests issued by the per-page dispatch are book-detail requests with
the hardcoded timeout 15, in both modes. -/
theorem process_page_trace (env : Env) (ut : Bool)
    (sched : Nat → List String → List String) (page : Nat)
    (links : List String) (acc : List BookRecord) :
    ∀ r ∈ (process_page env ut sched page links acc).1,
      r.isListing = false ∧ r.timeout = 15 := by
  intro r hr
  cases ut with
  | true =>
    simp only [process_page, if_true] at hr
    obtain ⟨l, _, rfl⟩ := List.mem_map.mp hr
    exact ⟨rfl, rfl⟩
  | false =>
    simp only [process_page, if_false, Bool.false_eq_true] at hr
    exact process_seq_trace env links acc r hr

/-- The page cap of zero is falsy in the loop guard, exactly like None. -/
theorem capReached_zero (page : Nat) : capReached (some 0) page = false := by
  simp [capReached]

/-- The absent page cap never stops the loop. -/
theorem capReached_none (page : Nat) : capReached none page = false := rfl

/-- The crawl loop with cap 0 takes every step the uncapped crawl takes. -/
theorem crawl_cap_zero (env : Env) (ut : Bool)
    (sched : Nat → List String → List String) (t : Int) :
    ∀ fuel page acc,
      crawl_loop env ut sched (some 0) t fuel page acc =
      crawl_loop env ut sched none t fuel page acc := by
  intro fuel
  induction fuel with
  | zero => intro page acc; rfl
  | succ n ih =>
    intro page acc
    simp only [crawl_loop, _fetch_page]
    cases h1 : env.listing (page_url_of page) 0 with
    | error e => rfl
    | ok links =>
      cases hl : links.isEmpty with
      | true => simp [hl]
      | false =>
        simp only [hl, Bool.false_eq_true, if_false]
        cases hb : (process_page env ut sched page links acc).2 with
        | error e => rfl
        | ok acc2 =>
          simp only [capReached_zero, capReached_none, if_false,
            Bool.false_eq_true]
          cases h2 : env.listing (page_url_of page) 1 with
          | error e => rfl
          | ok nb =>
            cases hnb : nb.isEmpty with
            | true => simp [hnb]
            | false =>
              simp only [hnb, Bool.false_eq_true, if_false, ih (page + 1) acc2]

/-! Claim C10. -/

/-- C10: a run invoked with page cap 0 treats the cap as absent (Python
falsiness of 0 in the loop guard): the whole run, saving included, is
identical to a run with no cap configured, for every environment, mode,
completion order, fuel and file system; it does not process zero pages. -/
theorem c10_cap_zero_means_no_cap (env : Env) (is_save ut : Bool)
    (sched : Nat → List String → List String) (op : Option String)
    (t : Int) (fuel : Nat) (fs : FS) :
    scrape_books env is_save ut sched (some 0) op t fuel fs =
    scrape_books env is_save ut sched none op t fuel fs := by
  unfold scrape_books
  rw [crawl_cap_zero]

/-! Claim C6. -/

/-- C6: the save step records the destination directory as existing and
replaces the destination content with exactly one line per record, so
saving twice in a row leaves exactly the lines of the most recent record
list, identical to having saved only it (overwrite, not append). -/
theorem c6_save_overwrites (books1 books2 : List BookRecord)
    (path : String) (fs : FS) :
    (save_books books2 path (save_books books1 path fs)).files path
        = some (books2.map bookLine) ∧
    (books2.map bookLine).length = books2.length ∧
    dirname path ∈ (save_books books2 path (save_books books1 path fs)).dirs ∧
    (save_books books2 path (save_books books1 path fs)).files path
        = (save_books books2 path fs).files path := by
  refine ⟨?_, ?_, ?_, ?_⟩ <;> simp [save_books]

/-! Claim C9. -/

/-- C9: when the listing fetch of the current page succeeds with zero book
links, the loop terminates at once: the only request of the iteration is
that listing fetch (the extractor is never invoked for the page) and the
records accumulated from the earlier pages are returned. -/
theorem c9_empty_listing_terminates (env : Env) (ut : Bool)
    (sched : Nat → List String → List String) (cap : Option Int) (t : Int)
    (fuel page : Nat) (acc : List BookRecord)
    (h : env.listing (page_url_of page) 0 = .ok []) :
    crawl_loop env ut sched cap t (fuel + 1) page acc =
      ([⟨page_url_of page, t, true⟩], .ok acc) := by
  simp [crawl_loop, _fetch_page, h]

/-- Witness for C9 at a concrete empty catalog. -/
theorem c9_witness :
    crawl_loop env0 false schedId none 30 1 1 [goodRec] =
      ([⟨page_url_of 1, 30, true⟩], .ok [goodRec]) :=
  c9_empty_listing_terminates env0 false schedId none 30 0 1 [goodRec] rfl

/-! Claim C2. -/

/-- C2 counterexample: the claim that no listing-page fetch failure can make
the whole run fail is false.  In env2 the link-gathering fetch of page 1
succeeds and one book is extracted, but the next-page check re-fetches the
same listing address outside any try block; its transport failure propagates
out of scrape_books: the run raises, the record gathered on the page is
lost, and nothing is saved. -/
theorem c2_counterexample :
    (scrape_books env2 true false schedId none none 30 2 fs0).2.2 =
      .error (.requestException "boom") ∧
    (scrape_books env2 true false schedId none none 30 2 fs0).2.1.files
      OUTPUT_PATH = none := by
  constructor <;> rfl

/-- C2 as amended: when the link-gathering fetch of the current listing page
(the one performed inside the try block) fails with a RequestException, the
loop logs it and terminates at once, returning the records accumulated so
far; only the unprotected next-page re-fetch can propagate a failure. -/
theorem c2_listing_fetch_error_terminates (env : Env) (ut : Bool)
    (sched : Nat → List String → List String) (cap : Option Int) (t : Int)
    (fuel page : Nat) (acc : List BookRecord) (e : Exc)
    (h : env.listing (page_url_of page) 0 = .error e)
    (he : isRequestException e = true) :
    crawl_loop env ut sched cap t (fuel + 1) page acc =
      ([⟨page_url_of page, t, true⟩], .ok acc) := by
  simp [crawl_loop, _fetch_page, h, he]

/-- Witness for C2 at a concrete unreachable catalog with partial results. -/
theorem c2_witness :
    crawl_loop envDown false schedId none 30 1 1 [goodRec] =
      ([⟨page_url_of 1, 30, true⟩], .ok [goodRec]) :=
  c2_listing_fetch_error_terminates envDown false schedId none 30 0 1
    [goodRec] (.requestException "down") rfl rfl

/-! Claim C1. -/

/-- C1 counterexample: the claim that every per-book fetch or parse failure
is skipped and never propagates is false.  In env1 page 1 lists two books;
the first parses to goodRec, but the second book page is missing its
div.product_main block, so get_book_data raises AttributeError, which the
sequential branch (catching only requests.RequestException) does not handle:
scrape_books raises, and the record already extracted on the page is lost
rather than returned. -/
theorem c1_counterexample :
    (scrape_books env1 true false schedId (some 1) none 30 1 fs0).2.2 =
      .error (.attributeError "NoneType object has no attribute") ∧
    (scrape_books env1 true false schedId (some 1) none 30 1 fs0).2.1.files
      OUTPUT_PATH = none := by
  constructor <;> rfl

/-- C1 as amended: a per-book failure is logged and skipped, with the crawl
continuing over the remaining links of the page and the accumulated records
kept, exactly when the failure is one the branch catches: a RequestException
(fetch failure) in either mode; parse failures propagate in both modes. -/
theorem c1_fetch_errors_skipped (env : Env) (link : String)
    (rest : List String) (acc : List BookRecord) (e : Exc)
    (hb : bookResult env link = .error e)
    (he : isRequestException e = true) :
    (process_seq env (link :: rest) acc).2 = (process_seq env rest acc).2 ∧
    process_threads env (link :: rest) acc = process_threads env rest acc := by
  constructor <;> simp [process_seq, process_threads, hb, he]

/-- Witness for C1: a concrete refused book fetch is skipped in both modes. -/
theorem c1_witness :
    (process_seq envBookDown ["x"] [goodRec]).2 =
      (process_seq envBookDown [] [goodRec]).2 ∧
    process_threads envBookDown ["x"] [goodRec] =
      process_threads envBookDown [] [goodRec] :=
  c1_fetch_errors_skipped envBookDown "x" [] [goodRec]
    (.requestException "refused") rfl rfl

/-! Claim C3. -/

/-- C3 counterexample: the claim that the extractor succeeds with empty
strings whenever only optional table entries are absent is false.  On a page
with every mandatory element present but no key/value table at all (hence
every optional entry absent), get_book_data dereferences the missing table
with find_all and raises AttributeError instead of degrading. -/
theorem c3_counterexample :
    parse_book tablelessPage =
      .error (.attributeError "NoneType object has no attribute") := rfl

/-- C3 as amended: a missing structural element for a mandatory field
(title, price, availability, rating) signals an error, and so does a missing
key/value table element, which is structurally mandatory even though each of
its entries is optional; when the table element is present with well-formed
rows, any absent optional entry among UPC, Product Type, Price (excl. tax),
Price (incl. tax), Tax, Availability and Number of reviews degrades to the
empty string, as does an absent description marker. -/
theorem c3_field_extraction :
    (∀ soup : BookPage,
      soup.product_main_h1 = none ∨ soup.price_color = none ∨
      soup.instock_availability = none ∨ soup.star_rating_classes = none ∨
      soup.info_table = none →
      ∃ e, parse_book soup = .error e) ∧
    (∀ (t p a c1 : String) (cs : List String) (rows : List (String × String)),
      ∃ r, parse_book
          ⟨some t, some p, some a, some ("star-rating" :: c1 :: cs), none,
            some (rows.map (fun kv => (some kv.1, some kv.2)))⟩ = .ok r ∧
        r.description = "" ∧
        ((∀ kv ∈ rows, kv.1 ≠ "UPC") → r.upc = "") ∧
        ((∀ kv ∈ rows, kv.1 ≠ "Product Type") → r.product_type = "") ∧
        ((∀ kv ∈ rows, kv.1 ≠ "Price (excl. tax)") → r.price_excl_tax = "") ∧
        ((∀ kv ∈ rows, kv.1 ≠ "Price (incl. tax)") → r.price_incl_tax = "") ∧
        ((∀ kv ∈ rows, kv.1 ≠ "Tax") → r.tax = "") ∧
        ((∀ kv ∈ rows, kv.1 ≠ "Availability") → r.availability_count = "") ∧
        ((∀ kv ∈ rows, kv.1 ≠ "Number of reviews") →
          r.number_of_reviews = "")) := by
  constructor
  · intro soup hmiss
    cases hp : parse_book soup with
    | error e => exact ⟨e, rfl⟩
    | ok r =>
      exfalso
      have inv := parse_book_ok_inv soup r hp
      rcases hmiss with h | h | h | h | h <;> simp_all
  · intro t p a c1 cs rows
    refine ⟨⟨t, p, a, c1, "", dictGet rows "UPC", dictGet rows "Product Type",
      dictGet rows "Price (excl. tax)", dictGet rows "Price (incl. tax)",
      dictGet rows "Tax", dictGet rows "Availability",
      dictGet rows "Number of reviews"⟩, ?_, rfl, ?_, ?_, ?_, ?_, ?_, ?_, ?_⟩
    · simp [parse_book, getText, buildInfo_map_ok]
    all_goals exact fun h => dictGet_of_not_mem rows _ h

/-- Witness for C3: part 1 at a concrete page missing its price element,
part 2 at a concrete page whose table has a single unrelated row. -/
theorem c3_witness :
    (∃ e, parse_book ⟨some "T", none, some "A",
        some ["star-rating", "Three"], none, some []⟩ = .error e) ∧
    (∃ r, parse_book
        ⟨some "T", some "P", some "A", some ("star-rating" :: "Two" :: []),
          none, some ([("Genre", "Fiction")].map
            (fun kv => (some kv.1, some kv.2)))⟩ = .ok r ∧
      r.description = "" ∧
      ((∀ kv ∈ [("Genre", "Fiction")], kv.1 ≠ "UPC") → r.upc = "") ∧
      ((∀ kv ∈ [("Genre", "Fiction")], kv.1 ≠ "Product Type") →
        r.product_type = "") ∧
      ((∀ kv ∈ [("Genre", "Fiction")], kv.1 ≠ "Price (excl. tax)") →
        r.price_excl_tax = "") ∧
      ((∀ kv ∈ [("Genre", "Fiction")], kv.1 ≠ "Price (incl. tax)") →
        r.price_incl_tax = "") ∧
      ((∀ kv ∈ [("Genre", "Fiction")], kv.1 ≠ "Tax") → r.tax = "") ∧
      ((∀ kv ∈ [("Genre", "Fiction")], kv.1 ≠ "Availability") →
        r.availability_count = "") ∧
      ((∀ kv ∈ [("Genre", "Fiction")], kv.1 ≠ "Number of reviews") →
        r.number_of_reviews = "")) :=
  ⟨c3_field_extraction.1 ⟨some "T", none, some "A",
      some ["star-rating", "Three"], none, some []⟩ (Or.inr (Or.inl rfl)),
   c3_field_extraction.2 "T" "P" "A" "Two" [] [("Genre", "Fiction")]⟩

/-! Claim C5. -/

/-- C5 counterexample: the claim that every successfully extracted record
has non-empty title, price, availability and rating with the rating among
the five recognized values is false: the extractor validates nothing.  On
c5page, whose star-rating class token is the unrecognized Six and whose
title text is empty, extraction succeeds verbatim. -/
theorem c5_counterexample :
    parse_book c5page = .ok c5rec ∧
    c5rec.rating ∉ ["One", "Two", "Three", "Four", "Five"] ∧
    c5rec.title = "" := by
  refine ⟨rfl, ?_, rfl⟩
  decide

/-- C5 as amended: the extractor copies the mandatory fields verbatim from
the page with no validation: on every page where extraction succeeds, title,
price and availability are exactly the texts of their elements and rating is
exactly the second class token of the star-rating element; so the fields are
non-empty and the rating is one of One to Five exactly when the markup
already satisfies that. -/
theorem c5_fields_copied_verbatim (soup : BookPage) (r : BookRecord)
    (h : parse_book soup = .ok r) :
    soup.product_main_h1 = some r.title ∧
    soup.price_color = some r.price ∧
    soup.instock_availability = some r.availability ∧
    (∃ cls, soup.star_rating_classes = some cls ∧ cls[1]? = some r.rating) :=
  ⟨(parse_book_ok_inv soup r h).1, (parse_book_ok_inv soup r h).2.1,
   (parse_book_ok_inv soup r h).2.2.1, (parse_book_ok_inv soup r h).2.2.2.1⟩

/-- Witness for C5 on the well-formed concrete page. -/
theorem c5_witness :
    goodPage.product_main_h1 = some goodRec.title ∧
    goodPage.price_color = some goodRec.price ∧
    goodPage.instock_availability = some goodRec.availability ∧
    (∃ cls, goodPage.star_rating_classes = some cls ∧
      cls[1]? = some goodRec.rating) :=
  c5_fields_copied_verbatim goodPage goodRec rfl

/-- Every request issued by the crawl loop is either a listing fetch with
the caller supplied timeout or a book-detail fetch with the hardcoded 15. -/
theorem crawl_loop_trace (env : Env) (ut : Bool)
    (sched : Nat → List String → List String) (cap : Option Int) (t : Int) :
    ∀ fuel page acc, ∀ r ∈ (crawl_loop env ut sched cap t fuel page acc).1,
      (r.isListing = true → r.timeout = t) ∧
      (r.isListing = false → r.timeout = 15) := by
  intro fuel
  induction fuel with
  | zero => intro page acc r hr; simp [crawl_loop] at hr
  | succ n ih =>
    intro page acc r hr
    have hpp := process_page_trace env ut sched page
    cases h1 : env.listing (page_url_of page) 0 with
    | error e =>
      cases hre : isRequestException e <;>
        simp [crawl_loop, _fetch_page, h1, hre] at hr <;>
        simp [hr]
    | ok links =>
      cases hl : links.isEmpty with
      | true =>
        simp [crawl_loop, _fetch_page, h1, hl] at hr
        simp [hr]
      | false =>
        cases hb : (process_page env ut sched page links acc).2 with
        | error e =>
          simp [crawl_loop, _fetch_page, h1, hl, hb] at hr
          rcases hr with rfl | hr2
          · simp
          · rcases hpp links acc r hr2 with ⟨hL, hT⟩
            simp [hL, hT]
        | ok acc2 =>
          cases hcap : capReached cap page with
          | true =>
            simp [crawl_loop, _fetch_page, h1, hl, hb, hcap] at hr
            rcases hr with rfl | hr2
            · simp
            · rcases hpp links acc r hr2 with ⟨hL, hT⟩
              simp [hL, hT]
          | false =>
            cases h2 : env.listing (page_url_of page) 1 with
            | error e2 =>
              simp [crawl_loop, _fetch_page, h1, hl, hb, hcap, h2] at hr
              rcases hr with rfl | hr2 | rfl
              · simp
              · rcases hpp links acc r hr2 with ⟨hL, hT⟩
                simp [hL, hT]
              · simp
            | ok nb =>
              cases hnb : nb.isEmpty with
              | true =>
                simp [crawl_loop, _fetch_page, h1, hl, hb, hcap, h2, hnb] at hr
                rcases hr with rfl | hr2 | rfl
                · simp
                · rcases hpp links acc r hr2 with ⟨hL, hT⟩
                  simp [hL, hT]
                · simp
              | false =>
                simp [crawl_loop, _fetch_page, h1, hl, hb, hcap, h2, hnb] at hr
                rcases hr with rfl | hr2 | rfl | hr4
                · simp
                · rcases hpp links acc r hr2 with ⟨hL, hT⟩
                  simp [hL, hT]
                · simp
                · exact ih (page + 1) acc2 r hr4

/-- The requests of scrape_books are exactly those of its crawl loop. -/
theorem scrape_books_trace_eq (env : Env) (is_save ut : Bool)
    (sched : Nat → List String → List String) (cap : Option Int)
    (op : Option String) (t : Int) (fuel : Nat) (fs : FS) :
    (scrape_books env is_save ut sched cap op t fuel fs).1 =
    (crawl_loop env ut sched cap t fuel 1 []).1 := by
  unfold scrape_books
  cases h : (crawl_loop env ut sched cap t fuel 1 []).2 with
  | error e => simp [h]
  | ok books => cases is_save <;> simp [h]

/-! Claim C8. -/

/-- C8 counterexample: the claim that the configured per-request timeout
bounds every network call is false for book-detail fetches.  A run of
scrape_books configured with timeout 30 issues the book-detail request for
link b with the timeout 15 hardcoded in get_book_data, not 30. -/
theorem c8_counterexample :
    (Request.mk "b" 15 false) ∈
      (scrape_books env8 true false schedId (some 1) none 30 1 fs0).1 ∧
    (Request.mk "b" 15 false).isListing = false ∧
    (Request.mk "b" 15 false).timeout ≠ 30 := by
  refine ⟨by decide, rfl, by decide⟩

/-- C8 as amended: in every run, every listing-page request carries the
configured per-request timeout, while every book-detail request carries the
fixed timeout 15 that get_book_data hardcodes, whatever value is
configured. -/
theorem c8_request_timeouts (env : Env) (is_save ut : Bool)
    (sched : Nat → List String → List String) (cap : Option Int)
    (op : Option String) (t : Int) (fuel : Nat) (fs : FS) :
    ∀ r ∈ (scrape_books env is_save ut sched cap op t fuel fs).1,
      (r.isListing = true → r.timeout = t) ∧
      (r.isListing = false → r.timeout = 15) := by
  intro r hr
  rw [scrape_books_trace_eq] at hr
  exact crawl_loop_trace env ut sched cap t fuel 1 [] r hr

/-- Witness for C8 at a concrete run whose trace contains the page-1
listing request. -/
theorem c8_witness :
    ((Request.mk (page_url_of 1) 30 true).isListing = true →
      (Request.mk (page_url_of 1) 30 true).timeout = 30) ∧
    ((Request.mk (page_url_of 1) 30 true).isListing = false →
      (Request.mk (page_url_of 1) 30 true).timeout = 15) :=
  c8_request_timeouts env0 true false schedId none none 30 1 fs0
    (Request.mk (page_url_of 1) 30 true) (by decide)

/-- A trace of book-detail requests contributes no listing addresses. -/
theorem listingUrls_nil_of (tr : List Request)
    (h : ∀ r ∈ tr, r.isListing = false) : listingUrls tr = [] := by
  unfold listingUrls
  have hf : tr.filter (fun r => r.isListing) = [] := by
    rw [List.filter_eq_nil_iff]
    intro a ha
    simp [h a ha]
  rw [hf]
  rfl

/-- A listing request at the head of a trace heads its listing addresses. -/
theorem listingUrls_cons_true (url : String) (t : Int) (tr : List Request) :
    listingUrls (⟨url, t, true⟩ :: tr) = url :: listingUrls tr := by
  simp [listingUrls]

/-- With page cap N, every listing request of the loop started at a page
number within the cap addresses a page between that number and N. -/
theorem crawl_listing_pages_bounded (env : Env) (ut : Bool)
    (sched : Nat → List String → List String) (t : Int) (N : Int)
    (hN0 : N ≠ 0) :
    ∀ (fuel page : Nat) (acc : List BookRecord), (page : Int) ≤ N →
      ∀ r ∈ (crawl_loop env ut sched (some N) t fuel page acc).1,
        r.isListing = true →
        ∃ k : Nat, page ≤ k ∧ (k : Int) ≤ N ∧ r.url = page_url_of k := by
  intro fuel
  induction fuel with
  | zero => intro page acc hpN r hr; simp [crawl_loop] at hr
  | succ n ih =>
    intro page acc hpN r hr hrl
    have hpp := process_page_trace env ut sched page
    cases h1 : env.listing (page_url_of page) 0 with
    | error e =>
      cases hre : isRequestException e <;>
        simp [crawl_loop, _fetch_page, h1, hre] at hr <;>
        exact ⟨page, le_refl page, hpN, by simp [hr]⟩
    | ok links =>
      cases hl : links.isEmpty with
      | true =>
        simp [crawl_loop, _fetch_page, h1, hl] at hr
        exact ⟨page, le_refl page, hpN, by simp [hr]⟩
      | false =>
        cases hb : (process_page env ut sched page links acc).2 with
        | error e =>
          simp [crawl_loop, _fetch_page, h1, hl, hb] at hr
          rcases hr with rfl | hr2
          · exact ⟨page, le_refl page, hpN, rfl⟩
          · exact absurd hrl (by simp [(hpp links acc r hr2).1])
        | ok acc2 =>
          cases hcap : capReached (some N) page with
          | true =>
            simp [crawl_loop, _fetch_page, h1, hl, hb, hcap] at hr
            rcases hr with rfl | hr2
            · exact ⟨page, le_refl page, hpN, rfl⟩
            · exact absurd hrl (by simp [(hpp links acc r hr2).1])
          | false =>
            have hlt : (page : Int) < N := by
              by_contra hge
              push_neg at hge
              simp [capReached, hN0, hge] at hcap
            have hp1N : ((page + 1 : Nat) : Int) ≤ N := by
              push_cast
              omega
            cases h2 : env.listing (page_url_of page) 1 with
            | error e2 =>
              simp [crawl_loop, _fetch_page, h1, hl, hb, hcap, h2] at hr
              rcases hr with rfl | hr2 | rfl
              · exact ⟨page, le_refl page, hpN, rfl⟩
              · exact absurd hrl (by simp [(hpp links acc r hr2).1])
              · exact ⟨page, le_refl page, hpN, rfl⟩
            | ok nb =>
              cases hnb : nb.isEmpty with
              | true =>
                simp [crawl_loop, _fetch_page, h1, hl, hb, hcap, h2, hnb] at hr
                rcases hr with rfl | hr2 | rfl
                · exact ⟨page, le_refl page, hpN, rfl⟩
                · exact absurd hrl (by simp [(hpp links acc r hr2).1])
                · exact ⟨page, le_refl page, hpN, rfl⟩
              | false =>
                simp [crawl_loop, _fetch_page, h1, hl, hb, hcap, h2, hnb] at hr
                rcases hr with rfl | hr2 | rfl | hr4
                · exact ⟨page, le_refl page, hpN, rfl⟩
                · exact absurd hrl (by simp [(hpp links acc r hr2).1])
                · exact ⟨page, le_refl page, hpN, rfl⟩
                · obtain ⟨k, hk1, hk2, hk3⟩ := ih (page + 1) acc2 hp1N r hr4 hrl
                  exact ⟨k, le_trans (Nat.le_succ page) hk1, hk2, hk3⟩

/-! Claim C7. -/

/-- C7: with page cap 1 the loop issues exactly one listing-page request,
for page 1, and terminates, whatever further catalog pages the environment
holds (the cap check fires before the next-page re-fetch, so the listing
address is not even fetched a second time); with any cap N of at least 1,
every listing-page request the run issues addresses one of the pages 1 to
N, so at most N listing pages are processed. -/
theorem c7_page_cap_bounds_listing_fetches (env : Env) (ut : Bool)
    (sched : Nat → List String → List String) (t : Int) (fuel : Nat)
    (N : Int) (hfuel : 1 ≤ fuel) (hN : 1 ≤ N) :
    listingUrls (crawl_loop env ut sched (some 1) t fuel 1 []).1 =
      [page_url_of 1] ∧
    ∀ r ∈ (crawl_loop env ut sched (some N) t fuel 1 []).1,
      r.isListing = true →
      ∃ k : Nat, 1 ≤ k ∧ (k : Int) ≤ N ∧ r.url = page_url_of k := by
  constructor
  · obtain ⟨m, rfl⟩ : ∃ m, fuel = m + 1 :=
      ⟨fuel - 1, (Nat.succ_pred_eq_of_pos hfuel).symm⟩
    have hpp := process_page_trace env ut sched 1
    cases h1 : env.listing (page_url_of 1) 0 with
    | error e =>
      cases hre : isRequestException e <;>
        simp [crawl_loop, _fetch_page, h1, hre, listingUrls]
    | ok links =>
      cases hl : links.isEmpty with
      | true => simp [crawl_loop, _fetch_page, h1, hl, listingUrls]
      | false =>
        have hnil : ∀ acc,
            listingUrls (process_page env ut sched 1 links acc).1 = [] :=
          fun acc => listingUrls_nil_of _ (fun r hr => (hpp links acc r hr).1)
        cases hb : (process_page env ut sched 1 links []).2 with
        | error e =>
          simp only [crawl_loop, _fetch_page, h1, hl, Bool.false_eq_true,
            if_false, hb, List.singleton_append]
          rw [listingUrls_cons_true, hnil []]
        | ok acc2 =>
          have hcap : capReached (some 1) 1 = true := by decide
          simp only [crawl_loop, _fetch_page, h1, hl, Bool.false_eq_true,
            if_false, hb, hcap, if_true, List.singleton_append]
          rw [listingUrls_cons_true, hnil []]
  · intro r hr hrl
    exact crawl_listing_pages_bounded env ut sched t N (by omega) fuel 1 []
      (by exact_mod_cast hN) r hr hrl

/-- Witness for C7 at a concrete one-page catalog with cap 1. -/
theorem c7_witness :
    listingUrls (crawl_loop env0 false schedId (some 1) 30 1 1 []).1 =
      [page_url_of 1] ∧
    ∀ r ∈ (crawl_loop env0 false schedId (some 1) 30 1 1 []).1,
      r.isListing = true →
      ∃ k : Nat, 1 ≤ k ∧ (k : Int) ≤ 1 ∧ r.url = page_url_of k :=
  c7_page_cap_bounds_listing_fetches env0 false schedId 30 1 1
    (le_refl 1) (le_refl 1)

/-- When every book extraction succeeds, the sequential branch appends one
record per link, in listing order. -/
theorem process_seq_all_ok (env : Env) (f : String → BookRecord)
    (hf : ∀ link, bookResult env link = .ok (f link)) :
    ∀ links acc, (process_seq env links acc).2 = .ok (acc ++ links.map f) := by
  intro links
  induction links with
  | nil => intro acc; simp [process_seq]
  | cons link rest ih =>
    intro acc
    simp [process_seq, hf link, ih (acc ++ [f link])]

/-- When every book extraction succeeds, the thread-pool branch appends one
record per link, in the given completion order. -/
theorem process_threads_all_ok (env : Env) (f : String → BookRecord)
    (hf : ∀ link, bookResult env link = .ok (f link)) :
    ∀ links acc, process_threads env links acc = .ok (acc ++ links.map f) := by
  intro links
  induction links with
  | nil => intro acc; simp [process_threads]
  | cons link rest ih =>
    intro acc
    simp [process_threads, hf link, ih (acc ++ [f link])]

/-- On a fixed all-success environment, the concurrent and the sequential
crawl loop both succeed from permuted accumulators and return permuted
record lists, for every completion order that permutes each page. -/
theorem crawl_modes_perm (env : Env)
    (sched : Nat → List String → List String) (cap : Option Int) (t : Int)
    (f : String → BookRecord) (g : String → Nat → List String)
    (hperm : ∀ p l, (sched p l).Perm l)
    (hf : ∀ link, bookResult env link = .ok (f link))
    (hg : ∀ url n, env.listing url n = .ok (g url n)) :
    ∀ (fuel page : Nat) (acc1 acc2 : List BookRecord), acc1.Perm acc2 →
      ∃ L1 L2,
        (crawl_loop env true sched cap t fuel page acc1).2 = .ok L1 ∧
        (crawl_loop env false sched cap t fuel page acc2).2 = .ok L2 ∧
        L1.Perm L2 := by
  intro fuel
  induction fuel with
  | zero => intro page acc1 acc2 hp; exact ⟨acc1, acc2, rfl, rfl, hp⟩
  | succ n ih =>
    intro page acc1 acc2 hp
    have h1 := hg (page_url_of page) 0
    have h2 := hg (page_url_of page) 1
    have hth : (process_page env true sched page (g (page_url_of page) 0)
        acc1).2 = .ok (acc1 ++ (sched page (g (page_url_of page) 0)).map f) := by
      simp [process_page, process_threads_all_ok env f hf]
    have hsq : (process_page env false sched page (g (page_url_of page) 0)
        acc2).2 = .ok (acc2 ++ (g (page_url_of page) 0).map f) := by
      simp [process_page, process_seq_all_ok env f hf]
    have hp2 : (acc1 ++ (sched page (g (page_url_of page) 0)).map f).Perm
        (acc2 ++ (g (page_url_of page) 0).map f) :=
      hp.append ((hperm page (g (page_url_of page) 0)).map f)
    cases hl : (g (page_url_of page) 0).isEmpty with
    | true =>
      exact ⟨acc1, acc2, by simp [crawl_loop, _fetch_page, h1, hl],
        by simp [crawl_loop, _fetch_page, h1, hl], hp⟩
    | false =>
      cases hcap : capReached cap page with
      | true =>
        refine ⟨_, _, ?_, ?_, hp2⟩ <;>
          simp [crawl_loop, _fetch_page, h1, hl, hth, hsq, hcap]
      | false =>
        cases hnb : (g (page_url_of page) 1).isEmpty with
        | true =>
          refine ⟨_, _, ?_, ?_, hp2⟩ <;>
            simp [crawl_loop, _fetch_page, h1, h2, hl, hth, hsq, hcap, hnb]
        | false =>
          obtain ⟨L1, L2, e1, e2, hpl⟩ := ih (page + 1) _ _ hp2
          refine ⟨L1, L2, ?_, ?_, hpl⟩ <;>
            simp [crawl_loop, _fetch_page, h1, h2, hl, hth, hsq, hcap, hnb,
              e1, e2]

/-! Claim C4. -/

/-- C4: on a fixed input set on which every request succeeds (listing
outcomes given by g, book records by f), the concurrent run and the
sequential run both return a record list, the two lists are permutations of
each other (equal as multisets) and they have the same length, for every
completion order that permutes each page's links. -/
theorem c4_modes_agree (env : Env)
    (sched : Nat → List String → List String) (cap : Option Int) (t : Int)
    (fuel : Nat) (f : String → BookRecord) (g : String → Nat → List String)
    (hperm : ∀ p l, (sched p l).Perm l)
    (hf : ∀ link, bookResult env link = .ok (f link))
    (hg : ∀ url n, env.listing url n = .ok (g url n)) :
    ∃ L1 L2,
      (crawl_loop env true sched cap t fuel 1 []).2 = .ok L1 ∧
      (crawl_loop env false sched cap t fuel 1 []).2 = .ok L2 ∧
      L1.Perm L2 ∧ L1.length = L2.length := by
  obtain ⟨L1, L2, e1, e2, hpl⟩ :=
    crawl_modes_perm env sched cap t f g hperm hf hg fuel 1 [] []
      (List.Perm.refl [])
  exact ⟨L1, L2, e1, e2, hpl, hpl.length_eq⟩

/-- Witness for C4 at a concrete all-success single-page environment. -/
theorem c4_witness :
    ∃ L1 L2,
      (crawl_loop env8 true schedId (some 1) 30 2 1 []).2 = .ok L1 ∧
      (crawl_loop env8 false schedId (some 1) 30 2 1 []).2 = .ok L2 ∧
      L1.Perm L2 ∧ L1.length = L2.length :=
  c4_modes_agree env8 schedId (some 1) 30 2 (fun _ => goodRec)
    (fun _ _ => ["b"]) (fun _ l => List.Perm.refl l) (fun _ => rfl)
    (fun _ _ => rfl)
